import Mathlib

/-!
Verification development for `proyectornt.py`, a Streamlit dashboard that
loads the national tourism registry (RNT), filters it to the QUINDIO region,
builds a cosine-similarity matrix over per-row feature text, and answers
recommendation queries.

The embedding models the pandas/sklearn pipeline over explicit data:

* a DataFrame is a `Table`: a list of (index label, row) pairs, because the
  source never calls `reset_index`, so pandas labels (original CSV positions)
  survive the region filter and `drop_duplicates`, while numpy matrix indexing
  and `iloc` are positional — the distinction is load-bearing;
* a cell is a `RawCell`: a parsed number, a text value, or missing (NaN);
* machine floats are idealised: similarity-matrix entries are encoded as a
  pair `(num, den) : Nat × Nat` standing for the cosine value `√(num / den)`
  (`num` = square of the dot product, `den` = product of the squared norms;
  `(0, 1)` when a vector is zero, matching sklearn's normalise-by-1-on-zero
  convention).  All cosine values here are nonnegative, so comparisons and
  equalities of the real values correspond exactly to cross-multiplied
  comparisons of the encodings, which keeps every definition executable;
* fallible steps return `Except`/`Option`: `Except.error` is an exception
  escaping the function, `Option.none` inside `recomendar_establecimientos`
  is the `except IndexError: return None` path.
-/

namespace RNT

/-- One cell of the in-memory table: a numeric value, a text value, or a
pandas missing value (NaN). -/
inductive RawCell where
  | num (q : ℚ)
  | text (s : String)
  | missing
  deriving DecidableEq

/-- One row of the table.  Field names are the source's column names after the
normalisation step of `cargar_datos` (strip, lowercase, spaces to
underscores): `DEPARTAMENTO ↦ departamento`, `RAZON SOCIAL ↦ razon_social`,
`RAZON_SOCIAL_ESTABLECIMIENTO ↦ razon_social_establecimiento`,
`CATEGORIA ↦ categoria`, `MUNICIPIO ↦ municipio`, and the three capacity
columns.  Renaming only changes column identifiers, never data, so one
structure serves raw and cleaned rows.  `info` is the derived column that
`calcular_similitud` writes onto the frame; it is absent (`none`) in raw
data. -/
structure PRow where
  departamento : RawCell
  razon_social : RawCell
  razon_social_establecimiento : RawCell
  categoria : RawCell
  municipio : RawCell
  numero_de_empleados : RawCell
  numero_de_camas : RawCell
  numero_de_habitaciones : RawCell
  info : Option String
  deriving DecidableEq

/-- A DataFrame: rows paired with their pandas index label.  Labels are the
row's position in the raw CSV; the source never resets them. -/
abbrev Table := List (ℕ × PRow)

/-- The eight data cells of a row (the `info` column is tracked separately
since it only appears after `calcular_similitud`). -/
def rowCells (r : PRow) : List RawCell :=
  [r.departamento, r.razon_social, r.razon_social_establecimiento, r.categoria,
   r.municipio, r.numero_de_empleados, r.numero_de_camas, r.numero_de_habitaciones]

/-- Digits-only parse of a character run, the building block of the numeric
parser. -/
def digitsToNat (cs : List Char) : Option ℕ :=
  if cs ≠ [] ∧ cs.all Char.isDigit then
    some (cs.foldl (fun n c => 10 * n + (c.toNat - 48)) 0)
  else none

/-- Whitespace trim over a character list (own implementation: the core
`String.trim` is defined by position loops that the kernel cannot reduce). -/
def trimChars (cs : List Char) : List Char :=
  ((cs.dropWhile Char.isWhitespace).reverse.dropWhile Char.isWhitespace).reverse

/-- Models `pd.to_numeric(_, errors="coerce")` applied to a text cell: parses
an optionally signed decimal literal (surrounding whitespace ignored),
otherwise yields missing.  Scientific notation and bare `.5` / `5.` forms are
outside the model; no claim evaluates them. -/
def parseNum (s : String) : Option ℚ :=
  let t := trimChars s.data
  let signed : ℚ × List Char :=
    match t with
    | '-' :: r => (-1, r)
    | '+' :: r => (1, r)
    | r => (1, r)
  let ip := signed.2.takeWhile (fun c => c ≠ '.')
  let rest := signed.2.dropWhile (fun c => c ≠ '.')
  match rest with
  | [] => (digitsToNat ip).map (fun a => signed.1 * a)
  | '.' :: fr =>
    match digitsToNat ip, digitsToNat fr with
    | some a, some b => some (signed.1 * ((a : ℚ) + (b : ℚ) / (10 ^ fr.length)))
    | _, _ => none
  | _ => none

/-- Numeric coercion of one cell, as in lines 25-27 of the source: numbers
pass through, text is parsed or becomes missing, missing stays missing. -/
def toNumeric (c : RawCell) : RawCell :=
  match c with
  | .num q => .num q
  | .text s => match parseNum s with | some q => .num q | none => .missing
  | .missing => .missing

/-- Missing-value fill for the `RAZON_SOCIAL_ESTABLECIMIENTO` column
(line 24): `fillna("DESCONOCIDO")`. -/
def fillDesconocido (c : RawCell) : RawCell :=
  match c with
  | .missing => .text "DESCONOCIDO"
  | c => c

/-- Global missing-value fill (line 36): `fillna("No disponible")`. -/
def fillCell (c : RawCell) : RawCell :=
  match c with
  | .missing => .text "No disponible"
  | c => c

/-- Per-row effect of lines 24-27: fill the establishment-name column and
coerce the three capacity columns. -/
def prepRow (r : PRow) : PRow :=
  { r with
    razon_social_establecimiento := fillDesconocido r.razon_social_establecimiento,
    numero_de_empleados := toNumeric r.numero_de_empleados,
    numero_de_camas := toNumeric r.numero_de_camas,
    numero_de_habitaciones := toNumeric r.numero_de_habitaciones }

/-- Per-row effect of line 36: `fillna("No disponible")` over every column. -/
def fillRow (r : PRow) : PRow :=
  { r with
    departamento := fillCell r.departamento,
    razon_social := fillCell r.razon_social,
    razon_social_establecimiento := fillCell r.razon_social_establecimiento,
    categoria := fillCell r.categoria,
    municipio := fillCell r.municipio,
    numero_de_empleados := fillCell r.numero_de_empleados,
    numero_de_camas := fillCell r.numero_de_camas,
    numero_de_habitaciones := fillCell r.numero_de_habitaciones }

/-- Region-filter predicate of line 30: `data["DEPARTAMENTO"] == "QUINDIO"`.
Pandas `==` against a string is `False` on NaN and on numeric cells. -/
def esQuindio (p : ℕ × PRow) : Bool :=
  decide (p.2.departamento = RawCell.text "QUINDIO")

/-- Worker for `drop_duplicates` (line 39): keep the first occurrence of each
row value; `seen` collects the row values already kept.  Pandas compares row
values only, never the index label. -/
def dedupAux : List (ℕ × PRow) → List PRow → List (ℕ × PRow)
  | [], _ => []
  | p :: rest, seen =>
    if p.2 ∈ seen then dedupAux rest seen
    else p :: dedupAux rest (p.2 :: seen)

/-- Exact-duplicate removal keeping first occurrences, as
`drop_duplicates(inplace=True)` on line 39. -/
def dedupKeepFirst (l : List (ℕ × PRow)) : List (ℕ × PRow) := dedupAux l []

/-- Embedding of `cargar_datos` (lines 18-44) after the CSV parse: fill the
establishment-name column, coerce the capacity columns, filter to QUINDIO,
rename columns (pure metadata, reflected in the field names of `PRow`), fill
all remaining missing values, and drop exact duplicate rows.  `List.enum`
attaches the pandas index labels (raw CSV positions); no later step resets
them.  File-system failures of the `try` block are outside the model. -/
def cargar_datos (raw : List PRow) : Table :=
  dedupKeepFirst
    ((((raw.map prepRow).enum).filter esQuindio).map (fun p => (p.1, fillRow p.2)))

/-- Re-run of the two table-shrinking cleaning steps — the region filter and
exact-duplicate removal — on an already-cleaned table. -/
def recleanse (t : Table) : Table :=
  dedupKeepFirst (t.filter esQuindio)

/-! ## Similarity builder (`calcular_similitud`, lines 47-53) -/

/-- Rendering of a cell by `astype(str)` (line 49).  The `toString` of a
rational idealises Python's float formatting; pandas renders NaN as the
string given here.  No claim depends on the exact numeric rendering. -/
def cellToStr (c : RawCell) : String :=
  match c with
  | .text s => s
  | .num q => toString q
  | .missing => "nan"

/-- Feature text of a row, line 49: `categoria + " " + municipio`. -/
def featureText (r : PRow) : String :=
  cellToStr r.categoria ++ " " ++ cellToStr r.municipio

/-- Word character in the sense of the regex class backslash-w used by
`CountVectorizer`'s default token pattern (ASCII approximation of the Unicode
class; the concrete tables below use ASCII only). -/
def wordChar (c : Char) : Bool :=
  c.isAlphanum || c = '_'

/-- Worker splitting a lowercased character list into maximal word-character
runs, keeping only runs of length at least 2 — `CountVectorizer`'s default
token pattern is two-or-more word characters.  `cur` holds the current run
reversed. -/
def tokenAux : List Char → List Char → List (List Char)
  | [], cur => if 2 ≤ cur.length then [cur.reverse] else []
  | c :: rest, cur =>
    if wordChar c then tokenAux rest (c :: cur)
    else if 2 ≤ cur.length then cur.reverse :: tokenAux rest []
    else tokenAux rest []

/-- Tokenisation performed by `CountVectorizer` with default settings:
lowercase, then extract word tokens of length at least 2. -/
def tokenize (s : String) : List String :=
  (tokenAux (s.data.map Char.toLower) []).map List.asString

/-- Dot product of the term-count vectors of two token lists:
`∑ over the vocabulary of (count in a) * (count in b)`, computed by summing
`b`'s count over each occurrence in `a`. -/
def dotN (a b : List String) : ℕ :=
  (a.map (fun t => b.count t)).sum

/-- Squared Euclidean norm of the term-count vector of a token list. -/
def normSqN (a : List String) : ℕ := dotN a a

/-- One cosine-similarity entry of sklearn's `cosine_similarity`, encoded
exactly as the pair `(num, den)` with value `√(num / den)`:
`num = (dot product)²`, `den = ‖a‖² * ‖b‖²`.  When either vector is zero,
sklearn's normalisation yields the value 0, encoded `(0, 1)`.  All cosine
values of count vectors are nonnegative, so this encoding preserves every
equality and order comparison of the true values. -/
def simEntry (a b : List String) : ℕ × ℕ :=
  if normSqN a = 0 ∨ normSqN b = 0 then (0, 1)
  else ((dotN a b) ^ 2, normSqN a * normSqN b)

/-- Token documents of a table: one token list per row, from its feature
text. -/
def docsOf (df : Table) : List (List String) :=
  df.map (fun p => tokenize (featureText p.2))

/-- Effect of line 49 on one row: `df["info"] = categoria + " " + municipio`
writes the derived column onto the frame passed in. -/
def setInfo (r : PRow) : PRow :=
  { r with info := some (featureText r) }

/-- Embedding of `calcular_similitud` (lines 47-53).  The assignment to
`df["info"]` mutates the caller's frame; the mutation is modelled by
returning the updated table alongside the matrix.  `CountVectorizer.fit_transform`
raises `ValueError` when no document yields any token (empty vocabulary),
modelled as the `Except.error` branch. -/
def calcular_similitud (df : Table) :
    Except String (Table × List (List (ℕ × ℕ))) :=
  if (docsOf df).all List.isEmpty then .error "empty vocabulary"
  else .ok (df.map (fun p => (p.1, setInfo p.2)),
            (docsOf df).map (fun u => (docsOf df).map (fun v => simEntry u v)))

/-- Matrix component of `calcular_similitud`'s result. -/
def simOf (df : Table) : Except String (List (List (ℕ × ℕ))) :=
  (calcular_similitud df).map (fun x => x.2)

/-- Table component of `calcular_similitud`'s result (the state of the
caller's frame after the call). -/
def tableOf (df : Table) : Except String Table :=
  (calcular_similitud df).map (fun x => x.1)

/-- Matrix entry at `(i, j)`, defaulting to the encoded value 0 out of
range. -/
def entry (M : List (List (ℕ × ℕ))) (i j : ℕ) : ℕ × ℕ :=
  ((M[i]?.getD [])[j]?).getD (0, 1)

/-! ## Recommender (`recomendar_establecimientos`, lines 56-65)

`df["razon_social"].str.contains(nombre, case=False, na=False)` interprets
`nombre` as a regular expression (the pandas default `regex=True`) compiled
once with `re.IGNORECASE`; an invalid pattern raises `re.error`, which the
`except IndexError` handler does not catch.  The pattern language is modelled
for patterns built from plain characters, `.` (any character except newline)
and balanced parentheses (pure grouping); other metacharacters are outside
the model. -/

/-- A compiled pattern token: a literal character or the `.` wildcard. -/
inductive PTok where
  | lit (c : Char)
  | dot
  deriving DecidableEq

/-- Regex metacharacters other than `.`, `(`, `)`, by character code:
`* + ? [ ] | ^ $ \` and the two curly brackets.  Patterns using them are
outside the modelled language. -/
def otherMeta (c : Char) : Bool :=
  c.toNat ∈ [42, 43, 63, 91, 93, 123, 125, 124, 94, 36, 92]

/-- Pattern compiler: `d` is the open-parenthesis depth.  Unbalanced
parentheses yield `none` — `re.compile` raises `re.error` — and balanced
ones are dropped, since a pure group matches exactly like its body. -/
def compileAux : List Char → ℕ → Option (List PTok)
  | [], d => if d = 0 then some [] else none
  | c :: rest, d =>
    if c = '(' then compileAux rest (d + 1)
    else if c = ')' then
      match d with
      | 0 => none
      | e + 1 => compileAux rest e
    else if c = '.' then (compileAux rest d).map (fun ts => PTok.dot :: ts)
    else if otherMeta c then none
    else (compileAux rest d).map (fun ts => PTok.lit c :: ts)

/-- Compile a query string as `re.compile(nombre, re.IGNORECASE)` does. -/
def compilePat (q : String) : Option (List PTok) :=
  compileAux q.data 0

/-- Token-versus-character match under `re.IGNORECASE`: literals compare
lowercased, `.` matches everything but a newline. -/
def matchTok (t : PTok) (x : Char) : Bool :=
  match t with
  | .lit c => c.toLower == x.toLower
  | .dot => decide (x ≠ '\n')

/-- Match a whole token list against a prefix of the text. -/
def matchHere : List PTok → List Char → Bool
  | [], _ => true
  | _ :: _, [] => false
  | t :: ts, x :: xs => matchTok t x && matchHere ts xs

/-- Search semantics of `re.search`: the pattern matches at some position. -/
def searchFrom (toks : List PTok) : List Char → Bool
  | [] => matchHere toks []
  | x :: s => matchHere toks (x :: s) || searchFrom toks s

/-- Row predicate of line 58: the trade-name cell matches the compiled
pattern; `na=False` makes missing cells `False`, and the `.str` accessor
makes numeric cells NaN, hence also `False`. -/
def razonMatches (toks : List PTok) (r : PRow) : Bool :=
  match r.razon_social with
  | .text s => searchFrom toks s.data
  | _ => false

/-- Index label of the first matching row:
`df[df["razon_social"].str.contains(...)].index[0]`.  `none` is the
`IndexError` of `.index[0]` on an empty selection.  The result is a pandas
LABEL, not a position. -/
def firstMatchIdx (toks : List PTok) (df : Table) : Option ℕ :=
  (df.find? (fun p => razonMatches toks p.2)).map (fun p => p.1)

/-- Matching step of the recommender in isolation: compile, then select the
first matching label; `Except.error` is an uncaught `re.error`. -/
def codeFirstMatch (q : String) (df : Table) : Except Unit (Option ℕ) :=
  match compilePat q with
  | none => .error ()
  | some toks => .ok (firstMatchIdx toks df)

/-- Comparison of two encoded cosine values: `(p, q) < (r, s)` as real values
`√(p/q) < √(r/s)`, by cross multiplication (denominators are positive, values
nonnegative).  This is the float comparison Python's sort performs. -/
def simLtB (x y : ℕ × ℕ) : Bool :=
  decide (x.1 * y.2 < y.1 * x.2)

/-- Insert a scored index into a descending-sorted list, after any existing
element of equal score. -/
def insertDesc (x : ℕ × (ℕ × ℕ)) : List (ℕ × (ℕ × ℕ)) → List (ℕ × (ℕ × ℕ))
  | [] => [x]
  | y :: ys => if simLtB y.2 x.2 then x :: y :: ys else y :: insertDesc x ys

/-- Stable descending sort by score, the semantics of
`sorted(scores, key=lambda x: x[1], reverse=True)`: Python's sort is stable,
and a stable sort's output is uniquely determined by the comparison, so this
insertion sort computes exactly it. -/
def sortDesc (l : List (ℕ × (ℕ × ℕ))) : List (ℕ × (ℕ × ℕ)) :=
  l.foldl (fun acc x => insertDesc x acc) []

/-- Positional row lookup `df.iloc[indices]`; `none` is its `IndexError`. -/
def getAll (df : Table) : List ℕ → Option (List (ℕ × PRow))
  | [] => some []
  | i :: is =>
    match df[i]?, getAll df is with
    | some p, some ps => some (p :: ps)
    | _, _ => none

/-- Candidate positions taken from a matrix row, lines 59-61: enumerate the
scores, sort them descending (stably), drop the top entry — the code assumes
it is the queried row — and keep the next `n` positions. -/
def indicesFor (row : List (ℕ × ℕ)) (n : ℕ) : List ℕ :=
  (((sortDesc row.enum).drop 1).take n).map (fun s => s.1)

/-- Body of the `try` block of `recomendar_establecimientos` (lines 58-63)
after pattern compilation; every `none` is an `IndexError` caught by the
handler on line 64: an empty selection at `.index[0]`, a label beyond the
matrix at `similaridad[idx]`, or an out-of-range position at `df.iloc`. -/
def recomendarCore (toks : List PTok) (df : Table)
    (similaridad : List (List (ℕ × ℕ))) (n : ℕ) :
    Option (List (RawCell × RawCell × RawCell)) :=
  match firstMatchIdx toks df with
  | none => none
  | some idx =>
    match similaridad[idx]? with
    | none => none
    | some row =>
      match getAll df (indicesFor row n) with
      | none => none
      | some rows =>
        some (rows.map (fun p => (p.2.razon_social, p.2.categoria, p.2.municipio)))

/-- Embedding of `recomendar_establecimientos` (lines 56-65): `Except.error`
is an exception escaping the function (an `re.error` from an invalid
pattern), `.ok none` is the `return None` of the `except IndexError`
handler, `.ok (some rows)` is the returned frame restricted to the trade
name, category and locality columns, in ranked order.  The source's default
`n=5` is passed explicitly at call sites. -/
def recomendar_establecimientos (nombre : String) (df : Table)
    (similaridad : List (List (ℕ × ℕ))) (n : ℕ) :
    Except Unit (Option (List (RawCell × RawCell × RawCell))) :=
  match compilePat nombre with
  | none => .error ()
  | some toks => .ok (recomendarCore toks df similaridad n)

/-! ## Reporting (lines 148-159) -/

/-- Text-cell test. -/
def cellIsText (c : RawCell) : Bool :=
  match c with
  | .text _ => true
  | _ => false

/-- Missing-cell test. -/
def cellIsMissing (c : RawCell) : Bool :=
  match c with
  | .missing => true
  | _ => false

/-- Numeric value of a cell, when it has one. -/
def cellNumVal (c : RawCell) : Option ℚ :=
  match c with
  | .num q => some q
  | _ => none

/-- Column mean as `df[col].mean()` computes it on line 153: NaN entries are
skipped (`skipna`), but a single text entry in an object-dtype column makes
the reduction raise `TypeError` (adding a float and a string); an empty
reduction yields NaN, modelled as its own error value. -/
def colMean (cells : List RawCell) : Except String ℚ :=
  let present := cells.filter (fun c => !cellIsMissing c)
  if present.any cellIsText then .error "TypeError"
  else
    match present.filterMap cellNumVal with
    | [] => .error "nan"
    | qs => .ok (qs.sum / (qs.length : ℚ))

/-- Column minimum as `df[col].min()` computes it on line 156: comparing a
float with a string raises `TypeError`. -/
def colMin (cells : List RawCell) : Except String ℚ :=
  let present := cells.filter (fun c => !cellIsMissing c)
  if present.any cellIsText then .error "TypeError"
  else
    match present.filterMap cellNumVal with
    | [] => .error "nan"
    | q :: qs => .ok (qs.foldl min q)

/-- Column maximum as `df[col].max()` computes it on line 157. -/
def colMax (cells : List RawCell) : Except String ℚ :=
  let present := cells.filter (fun c => !cellIsMissing c)
  if present.any cellIsText then .error "TypeError"
  else
    match present.filterMap cellNumVal with
    | [] => .error "nan"
    | q :: qs => .ok (qs.foldl max q)

/-! ## Spec-side matcher for comparison (claim C3) -/

/-- Case-insensitive prefix test over character lists. -/
def isPrefixCI : List Char → List Char → Bool
  | [], _ => true
  | _ :: _, [] => false
  | c :: cs, x :: xs => (c.toLower == x.toLower) && isPrefixCI cs xs

/-- Case-insensitive literal-substring containment over character lists. -/
def containsCI : List Char → List Char → Bool
  | cs, [] => cs.isEmpty
  | cs, x :: xs => isPrefixCI cs (x :: xs) || containsCI cs xs

/-- Matcher written from the spec's words, for comparison with the code's
regex-based one: select the first row (in table order) whose trade name
contains the query as a case-insensitive literal substring; non-string
trade-name cells never match, mirroring `na=False`. -/
def specFirstLiteralMatch (q : String) (df : Table) : Option ℕ :=
  (df.find? (fun p =>
    match p.2.razon_social with
    | .text s => containsCI q.data s.data
    | _ => false)).map (fun p => p.1)

/-- Query characters that are no regex metacharacter at all. -/
def plainChar (c : Char) : Bool :=
  !otherMeta c && c ≠ '.' && c ≠ '(' && c ≠ ')'

/-- Queries free of regex metacharacters. -/
def metaFreeQ (q : String) : Bool :=
  q.data.all plainChar

/-! ## Concrete tables used by the claim theorems -/

/-- Establishment row: Hotel Sol, lodging in Armenia, QUINDIO. -/
def filaSol : PRow :=
  { departamento := .text "QUINDIO", razon_social := .text "HOTEL SOL",
    razon_social_establecimiento := .text "HOTEL SOL SAS",
    categoria := .text "HOSPEDAJE", municipio := .text "ARMENIA",
    numero_de_empleados := .num 5, numero_de_camas := .num 20,
    numero_de_habitaciones := .num 10, info := none }

/-- Establishment row: Hotel Luna, lodging in Armenia, QUINDIO — same
category and locality as Hotel Sol. -/
def filaLuna : PRow :=
  { departamento := .text "QUINDIO", razon_social := .text "HOTEL LUNA",
    razon_social_establecimiento := .text "HOTEL LUNA SAS",
    categoria := .text "HOSPEDAJE", municipio := .text "ARMENIA",
    numero_de_empleados := .num 3, numero_de_camas := .num 15,
    numero_de_habitaciones := .num 8, info := none }

/-- Establishment row: a restaurant in Calarca, QUINDIO. -/
def filaCafe : PRow :=
  { departamento := .text "QUINDIO", razon_social := .text "CAFE ANDINO",
    razon_social_establecimiento := .text "CAFE ANDINO SAS",
    categoria := .text "RESTAURANTE", municipio := .text "CALARCA",
    numero_de_empleados := .num 4, numero_de_camas := .num 0,
    numero_de_habitaciones := .num 0, info := none }

/-- A row of another region, dropped by the QUINDIO filter but occupying a
raw CSV position, which shifts the kept rows' index labels. -/
def filaJunk : PRow :=
  { departamento := .text "CUNDINAMARCA", razon_social := .text "MUSEO NACIONAL",
    razon_social_establecimiento := .text "MUSEO NACIONAL",
    categoria := .text "MUSEO", municipio := .text "BOGOTA",
    numero_de_empleados := .num 9, numero_de_camas := .num 0,
    numero_de_habitaciones := .num 0, info := none }

/-- Establishment row: Hotel Azul in Salento, QUINDIO. -/
def filaAzul : PRow :=
  { departamento := .text "QUINDIO", razon_social := .text "HOTEL AZUL",
    razon_social_establecimiento := .text "HOTEL AZUL SAS",
    categoria := .text "HOSPEDAJE", municipio := .text "SALENTO",
    numero_de_empleados := .num 2, numero_de_camas := .num 6,
    numero_de_habitaciones := .num 3, info := none }

/-- Row whose category and locality are single characters: its feature text
"X Y" is non-empty yet yields no token of length 2, so its count vector is
zero. -/
def filaXY : PRow :=
  { departamento := .text "QUINDIO", razon_social := .text "HOSTAL EQUIS",
    razon_social_establecimiento := .text "HOSTAL EQUIS",
    categoria := .text "X", municipio := .text "Y",
    numero_de_empleados := .num 1, numero_de_camas := .num 2,
    numero_de_habitaciones := .num 1, info := none }

/-- Rows for the summary-statistics claim: room counts 10, unparseable text,
20. -/
def fila10 : PRow :=
  { departamento := .text "QUINDIO", razon_social := .text "FINCA ALFA",
    razon_social_establecimiento := .text "FINCA ALFA",
    categoria := .text "HOSPEDAJE", municipio := .text "FILANDIA",
    numero_de_empleados := .num 1, numero_de_camas := .num 2,
    numero_de_habitaciones := .num 10, info := none }

/-- Middle row with a textual, unparseable room count. -/
def filaNA : PRow :=
  { departamento := .text "QUINDIO", razon_social := .text "FINCA BETA",
    razon_social_establecimiento := .text "FINCA BETA",
    categoria := .text "HOSPEDAJE", municipio := .text "FILANDIA",
    numero_de_empleados := .num 1, numero_de_camas := .num 2,
    numero_de_habitaciones := .text "not available", info := none }

/-- Last row with room count 20. -/
def fila20 : PRow :=
  { departamento := .text "QUINDIO", razon_social := .text "FINCA GAMMA",
    razon_social_establecimiento := .text "FINCA GAMMA",
    categoria := .text "HOSPEDAJE", municipio := .text "FILANDIA",
    numero_de_empleados := .num 1, numero_de_camas := .num 2,
    numero_de_habitaciones := .num 20, info := none }

/-- Raw file for claim C1: a non-QUINDIO first row shifts the labels of the
two QUINDIO rows to 1 and 2 while their matrix positions are 0 and 1. -/
def rawEx1 : List PRow := [filaJunk, filaSol, filaCafe]

/-- Raw file for claim C2: three QUINDIO rows, labels equal to positions;
the first two share category and locality, hence cosine similarity 1. -/
def rawEx2 : List PRow := [filaLuna, filaSol, filaCafe]

/-- Raw file for claim C10: two dropped rows before the single QUINDIO row,
whose label 2 exceeds the 1x1 similarity matrix. -/
def rawEx10 : List PRow := [filaJunk, filaJunk, filaSol]

/-- Raw file for claim C6. -/
def raw6 : List PRow := [fila10, filaNA, fila20]

/-- Cleaned-style table for claim C3's counterexample. -/
def tablaAzul : Table := [(0, filaAzul)]

/-- Cleaned-style table for claim C7's counterexample: a zero-vector row next
to a regular one. -/
def tablaXY : Table := [(0, filaXY), (1, filaSol)]

/-- Cleaned-style three-row table used by witnesses. -/
def tablaW : Table := [(0, filaLuna), (1, filaSol), (2, filaCafe)]

deriving instance DecidableEq for Except

/-- Shared similarity matrix of `tablaW`, used by witnesses. -/
def matW : List (List (ℕ × ℕ)) :=
  [[(4, 4), (4, 4), (0, 4)], [(4, 4), (4, 4), (0, 4)], [(0, 4), (0, 4), (4, 4)]]

/-! ## General lemmas about the matcher -/

/-- An empty compiled pattern matches every text, like `re.search("", s)`. -/
lemma searchFrom_nil_pat : ∀ s : List Char, searchFrom [] s = true
  | [] => rfl
  | _ :: _ => by simp [searchFrom, matchHere]

/-- With the empty pattern, the row predicate of line 58 is exactly "the
trade-name cell is a string". -/
lemma razonMatches_nil (r : PRow) : razonMatches [] r = cellIsText r.razon_social := by
  cases h : r.razon_social <;> simp [razonMatches, cellIsText, h, searchFrom_nil_pat]

/-- A metacharacter-free pattern compiles to its literal characters. -/
lemma plain_compile : ∀ cs : List Char, cs.all plainChar = true →
    compileAux cs 0 = some (cs.map PTok.lit) := by
  intro cs
  induction cs with
  | nil => intro _; rfl
  | cons c cs ih =>
    intro h
    rw [List.all_cons, Bool.and_eq_true] at h
    obtain ⟨hc, hcs⟩ := h
    simp only [plainChar, Bool.and_eq_true, Bool.not_eq_true', decide_eq_true_eq] at hc
    obtain ⟨⟨⟨hm, hdot⟩, hlp⟩, hrp⟩ := hc
    simp [compileAux, hlp, hrp, hdot, hm, ih hcs]

/-- Literal-token prefix matching is case-insensitive prefix comparison. -/
lemma matchHere_lits : ∀ cs s : List Char,
    matchHere (cs.map PTok.lit) s = isPrefixCI cs s := by
  intro cs
  induction cs with
  | nil => intro s; cases s <;> rfl
  | cons c cs ih =>
    intro s
    cases s with
    | nil => rfl
    | cons x xs => simp [matchHere, isPrefixCI, matchTok, ih]

/-- Searching a literal-only pattern is case-insensitive substring
containment. -/
lemma searchFrom_lits : ∀ s cs : List Char,
    searchFrom (cs.map PTok.lit) s = containsCI cs s := by
  intro s
  induction s with
  | nil => intro cs; cases cs <;> rfl
  | cons x xs ih => intro cs; simp [searchFrom, containsCI, matchHere_lits, ih]

/-! ## General lemmas about the recommender -/

/-- Unfolding of `recomendar_establecimientos` once the pattern compiles. -/
lemma recomendar_eq_core {q : String} {toks : List PTok} {df : Table}
    {sim : List (List (ℕ × ℕ))} {n : ℕ} (hc : compilePat q = some toks) :
    recomendar_establecimientos q df sim n = .ok (recomendarCore toks df sim n) := by
  unfold recomendar_establecimientos
  rw [hc]

/-- Insertion preserves membership. -/
lemma mem_insertDesc : ∀ {l : List (ℕ × (ℕ × ℕ))} {z x : ℕ × (ℕ × ℕ)},
    z ∈ insertDesc x l → z = x ∨ z ∈ l := by
  intro l
  induction l with
  | nil =>
    intro z x h
    simp [insertDesc] at h
    exact Or.inl h
  | cons y ys ih =>
    intro z x h
    simp only [insertDesc] at h
    split at h
    · rcases List.mem_cons.mp h with rfl | h2
      · exact Or.inl rfl
      · exact Or.inr h2
    · rcases List.mem_cons.mp h with rfl | h2
      · exact Or.inr (List.mem_cons_self _ _)
      · rcases ih h2 with rfl | h3
        · exact Or.inl rfl
        · exact Or.inr (List.mem_cons_of_mem _ h3)

/-- Folded insertion only produces elements of the accumulator or the
input. -/
lemma mem_foldl_insert : ∀ (l : List (ℕ × (ℕ × ℕ))) (acc : List (ℕ × (ℕ × ℕ)))
    (z : ℕ × (ℕ × ℕ)), z ∈ l.foldl (fun a x => insertDesc x a) acc → z ∈ acc ∨ z ∈ l := by
  intro l
  induction l with
  | nil => intro acc z h; exact Or.inl h
  | cons x xs ih =>
    intro acc z h
    simp only [List.foldl_cons] at h
    rcases ih _ _ h with h1 | h2
    · rcases mem_insertDesc h1 with rfl | h
      · exact Or.inr (List.mem_cons_self _ _)
      · exact Or.inl h
    · exact Or.inr (List.mem_cons_of_mem _ h2)

/-- The sorted score list is a sublist of the input, membership-wise. -/
lemma mem_sortDesc {l : List (ℕ × (ℕ × ℕ))} {z : ℕ × (ℕ × ℕ)}
    (h : z ∈ sortDesc l) : z ∈ l := by
  rcases mem_foldl_insert l [] z h with h1 | h1
  · cases h1
  · exact h1

/-- Enumerated positions are below the list length. -/
lemma enum_fst_lt {α : Type} : ∀ {l : List α} {z : ℕ × α}, z ∈ l.enum → z.1 < l.length := by
  intro l z h
  obtain ⟨i, a⟩ := z
  have h2 := List.mem_enumFrom (j := 0) h
  omega

/-- In-bounds positional lookups all succeed, like `iloc` on valid
positions. -/
lemma getAll_total {df : Table} : ∀ {is : List ℕ}, (∀ i ∈ is, i < df.length) →
    ∃ rs, getAll df is = some rs := by
  intro is
  induction is with
  | nil => intro _; exact ⟨[], rfl⟩
  | cons i is ih =>
    intro h
    have hi : i < df.length := h i (List.mem_cons_self _ _)
    obtain ⟨rs, hrs⟩ := ih (fun j hj => h j (List.mem_cons_of_mem _ hj))
    exact ⟨df[i] :: rs, by simp [getAll, List.getElem?_eq_getElem hi, hrs]⟩

/-- Candidate positions are positions of the matrix row. -/
lemma indicesFor_lt {row : List (ℕ × ℕ)} {n : ℕ} :
    ∀ i ∈ indicesFor row n, i < row.length := by
  intro i hi
  rcases List.mem_map.mp hi with ⟨z, hz, rfl⟩
  have hz2 : z ∈ sortDesc row.enum :=
    List.mem_of_mem_drop (List.mem_of_mem_take hz)
  exact enum_fst_lt (mem_sortDesc hz2)

/-- Characterisation of the `None` outcomes of the `try` body, for a matrix
whose rows are as long as the table: no row matches, or the matched label
falls outside the matrix. -/
lemma core_none_iff {toks : List PTok} {df : Table} {sim : List (List (ℕ × ℕ))}
    {n : ℕ} (ha : ∀ row ∈ sim, row.length = df.length) :
    recomendarCore toks df sim n = none ↔
      firstMatchIdx toks df = none ∨
      ∃ l, firstMatchIdx toks df = some l ∧ sim.length ≤ l := by
  unfold recomendarCore
  cases hm : firstMatchIdx toks df with
  | none => simp
  | some l =>
    cases hr : sim[l]? with
    | none =>
      have hle : sim.length ≤ l := List.getElem?_eq_none_iff.mp hr
      simp [hr, hle]
    | some row =>
      obtain ⟨hlt, he⟩ := List.getElem?_eq_some.mp hr
      have hrow : row ∈ sim := he ▸ List.getElem_mem hlt
      have hlen : row.length = df.length := ha row hrow
      have hb : ∀ i ∈ indicesFor row n, i < df.length := by
        intro i hi
        have := indicesFor_lt i hi
        omega
      obtain ⟨rs, hrs⟩ := getAll_total hb
      simp [hr, hrs, Nat.not_le_of_lt hlt]

/-- When a match is found at a label inside the matrix, the `try` body
returns a frame (possibly empty), not `None`. -/
lemma core_some {toks : List PTok} {df : Table} {sim : List (List (ℕ × ℕ))}
    {n l : ℕ} (ha : ∀ row ∈ sim, row.length = df.length)
    (hm : firstMatchIdx toks df = some l) (hl : l < sim.length) :
    ∃ lst, recomendarCore toks df sim n = some lst := by
  rcases h : recomendarCore toks df sim n with _ | lst
  · exfalso
    rcases (core_none_iff ha).mp h with h1 | ⟨l2, hl2, hle⟩
    · rw [hm] at h1
      exact Option.noConfusion h1
    · rw [hm] at hl2
      injection hl2 with e
      omega
  · exact ⟨lst, rfl⟩

/-! ## Claim theorems -/

/-- C1 (code_bug evaluation): `recomendar_establecimientos` does NOT rank the
other rows by the matched row's matrix row.  On the cleaned table of
`rawEx1` the QUINDIO rows sit at positions 0 (Hotel Sol) and 1 (the
restaurant) but keep index labels 1 and 2.  The query "sol" matches Hotel
Sol, position 0, yet the code reads `similaridad[1]` — the restaurant's
similarity row — and then recommends Hotel Sol itself instead of the
claimed ranking of the other rows (which would return the restaurant). -/
theorem c1_label_mismatch :
    calcular_similitud (cargar_datos rawEx1) =
      .ok ([(1, setInfo filaSol), (2, setInfo filaCafe)],
           [[(4, 4), (0, 4)], [(0, 4), (4, 4)]]) ∧
    recomendar_establecimientos "sol" [(1, setInfo filaSol), (2, setInfo filaCafe)]
      [[(4, 4), (0, 4)], [(0, 4), (4, 4)]] 5 =
      .ok (some [(RawCell.text "HOTEL SOL", RawCell.text "HOSPEDAJE",
                  RawCell.text "ARMENIA")]) := by decide

/-- C2 (code_bug evaluation): the output can contain the matched row itself.
On the cleaned table of `rawEx2` labels equal positions, so the index bug is
absent; but Hotel Luna (position 0) has feature text identical to Hotel Sol
(position 1), so both score 1.0 in Sol's matrix row.  The stable descending
sort keeps Luna first, `scores[1:n+1]` therefore drops Luna — not Sol — and
the returned list contains Hotel Sol, the matched row. -/
theorem c2_self_in_output :
    calcular_similitud (cargar_datos rawEx2) =
      .ok ([(0, setInfo filaLuna), (1, setInfo filaSol), (2, setInfo filaCafe)],
           matW) ∧
    recomendar_establecimientos "sol"
      [(0, setInfo filaLuna), (1, setInfo filaSol), (2, setInfo filaCafe)]
      matW 5 =
      .ok (some [(RawCell.text "HOTEL SOL", RawCell.text "HOSPEDAJE",
                  RawCell.text "ARMENIA"),
                 (RawCell.text "CAFE ANDINO", RawCell.text "RESTAURANTE",
                  RawCell.text "CALARCA")]) := by decide

/-- C3 (counterexample): matching is regular-expression search, not literal
substring containment.  The query "l.a" selects the row "HOTEL AZUL"
(the dot matches the space), although "l.a" is not a case-insensitive
literal substring of "HOTEL AZUL", where the claim predicts no match. -/
theorem c3_counterexample :
    codeFirstMatch "l.a" tablaAzul = .ok (some 0) ∧
    specFirstLiteralMatch "l.a" tablaAzul = none ∧
    containsCI "l.a".data "HOTEL AZUL".data = false := by decide

/-- C3 (amended): for queries free of regex metacharacters, the code's
matcher coincides with the spec's first case-insensitive-literal-substring
matcher — first row in table order, no fuzzy matching, no ranking among
multiple matches. -/
theorem c3_first_match (q : String) (df : Table) (h : metaFreeQ q = true) :
    codeFirstMatch q df = .ok (specFirstLiteralMatch q df) := by
  have hc : compilePat q = some (q.data.map PTok.lit) := plain_compile q.data h
  unfold codeFirstMatch
  rw [hc]
  show Except.ok (firstMatchIdx (q.data.map PTok.lit) df) =
    Except.ok (specFirstLiteralMatch q df)
  unfold firstMatchIdx specFirstLiteralMatch
  have hpred : (fun p : ℕ × PRow => razonMatches (q.data.map PTok.lit) p.2)
      = (fun p : ℕ × PRow =>
          match p.2.razon_social with
          | .text s => containsCI q.data s.data
          | _ => false) := by
    funext p
    cases hr : p.2.razon_social <;> simp [razonMatches, hr, searchFrom_lits]
  rw [hpred]

/-- C3 (witness): the amended theorem applied to the query "sol" on the
three-row table. -/
theorem c3_witness :
    codeFirstMatch "sol" tablaW = .ok (specFirstLiteralMatch "sol" tablaW) :=
  c3_first_match "sol" tablaW (by decide)

/-- C4 (counterexample): two failures of the claim.  The query "(" does not
compile as a regex, so `str.contains` raises `re.error`, which the
`except IndexError` handler lets escape to the caller.  And the query
"andino" matches the restaurant at index label 2, yet the function returns
the NotFound signal `None`, because label 2 falls outside the 2x2 matrix —
a NotFound produced by an internal fault, not by a failed match. -/
theorem c4_counterexample :
    recomendar_establecimientos "(" [(1, setInfo filaSol), (2, setInfo filaCafe)]
      [[(4, 4), (0, 4)], [(0, 4), (4, 4)]] 5 = .error () ∧
    codeFirstMatch "andino" [(1, setInfo filaSol), (2, setInfo filaCafe)] =
      .ok (some 2) ∧
    recomendar_establecimientos "andino" [(1, setInfo filaSol), (2, setInfo filaCafe)]
      [[(4, 4), (0, 4)], [(0, 4), (4, 4)]] 5 = .ok none := by decide

/-- C4 (amended): for queries that compile as regular expressions, and a
matrix whose rows match the table's length, the recommender never lets an
exception escape, and it returns the NotFound signal `None` exactly when
either no trade name matches the query or the matched row's index label
lies outside the similarity matrix. -/
theorem c4_error_surface (q : String) (toks : List PTok) (df : Table)
    (sim : List (List (ℕ × ℕ))) (n : ℕ)
    (hc : compilePat q = some toks)
    (ha : ∀ row ∈ sim, row.length = df.length) :
    (∃ r, recomendar_establecimientos q df sim n = .ok r) ∧
    (recomendar_establecimientos q df sim n = .ok none ↔
      firstMatchIdx toks df = none ∨
      ∃ l, firstMatchIdx toks df = some l ∧ sim.length ≤ l) := by
  refine ⟨⟨_, recomendar_eq_core hc⟩, ?_⟩
  rw [recomendar_eq_core hc]
  simp only [Except.ok.injEq]
  exact core_none_iff ha

/-- C4 (witness): the amended theorem applied to the query "sol" on the
three-row table with its own 3x3 matrix. -/
theorem c4_witness :
    (∃ r, recomendar_establecimientos "sol" tablaW matW 5 = .ok r) ∧
    (recomendar_establecimientos "sol" tablaW matW 5 = .ok none ↔
      firstMatchIdx [PTok.lit 's', PTok.lit 'o', PTok.lit 'l'] tablaW = none ∨
      ∃ l, firstMatchIdx [PTok.lit 's', PTok.lit 'o', PTok.lit 'l'] tablaW = some l ∧
        matW.length ≤ l) :=
  c4_error_surface "sol" [PTok.lit 's', PTok.lit 'o', PTok.lit 'l'] tablaW matW 5
    (by decide) (by decide)

/-- C6 (code_bug evaluation): on room counts 10, "not available", 20 the
cleaning pipeline leaves the column holding two numbers and the sentinel
string, and the reductions behind `summary_stats` raise `TypeError`
(`float` plus/versus `str`) instead of excluding the sentinel and returning
mean 15, min 10, max 20 as the claim states.  (Older pandas releases
silently drop the whole column from the result instead; no release returns
the claimed statistics for this column.) -/
theorem c6_mixed_column_raises :
    (cargar_datos raw6).map (fun p => p.2.numero_de_habitaciones) =
      [RawCell.num 10, RawCell.text "No disponible", RawCell.num 20] ∧
    colMean ((cargar_datos raw6).map (fun p => p.2.numero_de_habitaciones)) =
      .error "TypeError" ∧
    colMin ((cargar_datos raw6).map (fun p => p.2.numero_de_habitaciones)) =
      .error "TypeError" ∧
    colMax ((cargar_datos raw6).map (fun p => p.2.numero_de_habitaciones)) =
      .error "TypeError" := by decide

/-- C10 (counterexample): on the cleaned table of `rawEx10` the single row
keeps index label 2 while the matrix is 1x1.  The empty query does match
that first row, yet the function returns the NotFound signal `None` instead
of recommendations for the matched row. -/
theorem c10_counterexample :
    cargar_datos rawEx10 = [(2, filaSol)] ∧
    calcular_similitud (cargar_datos rawEx10) =
      .ok ([(2, setInfo filaSol)], [[(4, 4)]]) ∧
    recomendar_establecimientos "" [(2, setInfo filaSol)] [[(4, 4)]] 5 =
      .ok none := by decide

/-- C10 (amended): the core never rejects the empty query — it compiles to
the empty pattern, which matches every string, so the matched row is the
first row whose trade-name cell is a string; when that row's index label
lies inside a matrix whose rows match the table's length, the function
returns a recommendation list rather than NotFound.  (Empty-input rejection
exists only in the UI layer, lines 97-106, outside this function.) -/
theorem c10_empty_query (df : Table) (sim : List (List (ℕ × ℕ))) (n : ℕ) :
    compilePat "" = some [] ∧
    codeFirstMatch "" df =
      .ok ((df.find? (fun p => cellIsText p.2.razon_social)).map (fun p => p.1)) ∧
    ∀ l, (df.find? (fun p => cellIsText p.2.razon_social)).map (fun p => p.1) = some l →
      l < sim.length → (∀ row ∈ sim, row.length = df.length) →
      ∃ lst, recomendar_establecimientos "" df sim n = .ok (some lst) := by
  have hfind : (fun p : ℕ × PRow => razonMatches [] p.2)
      = (fun p : ℕ × PRow => cellIsText p.2.razon_social) :=
    funext (fun p => razonMatches_nil p.2)
  refine ⟨rfl, ?_, ?_⟩
  · unfold codeFirstMatch
    rw [show compilePat "" = some [] from rfl]
    show Except.ok (firstMatchIdx [] df) = _
    unfold firstMatchIdx
    rw [hfind]
  · intro l hl hlt ha
    have hm : firstMatchIdx [] df = some l := by
      unfold firstMatchIdx
      rw [hfind]
      exact hl
    obtain ⟨lst, hlst⟩ := core_some (n := n) ha hm hlt
    exact ⟨lst, by rw [recomendar_eq_core (q := "") rfl, hlst]⟩

/-- C10 (witness): the amended theorem applied to the three-row table; the
empty query matches the first row (label 0) and recommendations are
produced. -/
theorem c10_witness :
    ∃ lst, recomendar_establecimientos "" tablaW matW 5 = .ok (some lst) :=
  (c10_empty_query tablaW matW 5).2.2 0 (by decide) (by decide) (by decide)

/-! ## Lemmas about the similarity encoding -/

/-- The dot product as a vocabulary sum, over any finite set covering the
first list's support. -/
lemma dotN_eq_sum (u v : List String) (s : Finset String) (hs : u.toFinset ⊆ s) :
    dotN u v = ∑ t ∈ s, u.count t * v.count t := by
  unfold dotN
  rw [Finset.sum_list_map_count]
  simp only [smul_eq_mul]
  exact Finset.sum_subset hs (fun x _ hx => by
    rw [List.count_eq_zero.mpr (fun hmem => hx (List.mem_toFinset.mpr hmem)),
        Nat.zero_mul])

/-- Support of the left list inside the joint vocabulary. -/
lemma toFinset_subset_left (u v : List String) :
    u.toFinset ⊆ (u ++ v).toFinset := by
  rw [List.toFinset_append]
  exact Finset.subset_union_left

/-- Support of the right list inside the joint vocabulary. -/
lemma toFinset_subset_right (u v : List String) :
    v.toFinset ⊆ (u ++ v).toFinset := by
  rw [List.toFinset_append]
  exact Finset.subset_union_right

/-- The dot product of count vectors is symmetric. -/
lemma dotN_comm (u v : List String) : dotN u v = dotN v u := by
  rw [dotN_eq_sum u v ((u ++ v).toFinset) (toFinset_subset_left u v),
      dotN_eq_sum v u ((u ++ v).toFinset) (toFinset_subset_right u v)]
  exact Finset.sum_congr rfl (fun t _ => Nat.mul_comm _ _)

/-- Cauchy-Schwarz for count vectors. -/
lemma dotN_sq_le (u v : List String) : dotN u v ^ 2 ≤ normSqN u * normSqN v := by
  have h1 := dotN_eq_sum u v ((u ++ v).toFinset) (toFinset_subset_left u v)
  have h2 : normSqN u = ∑ t ∈ (u ++ v).toFinset, u.count t ^ 2 := by
    unfold normSqN
    rw [dotN_eq_sum u u ((u ++ v).toFinset) (toFinset_subset_left u v)]
    exact Finset.sum_congr rfl (fun t _ => (pow_two _).symm)
  have h3 : normSqN v = ∑ t ∈ (u ++ v).toFinset, v.count t ^ 2 := by
    unfold normSqN
    rw [dotN_eq_sum v v ((u ++ v).toFinset) (toFinset_subset_right u v)]
    exact Finset.sum_congr rfl (fun t _ => (pow_two _).symm)
  rw [h1, h2, h3]
  exact Finset.sum_mul_sq_le_sq_mul_sq _ _ _

/-- A non-empty token list has a positive squared norm. -/
lemma normSqN_pos (u : List String) (h : u ≠ []) : 0 < normSqN u := by
  cases u with
  | nil => exact absurd rfl h
  | cons t rest =>
    unfold normSqN dotN
    simp only [List.map_cons, List.sum_cons]
    have hc : 0 < (t :: rest).count t :=
      List.count_pos_iff.mpr (List.mem_cons_self _ _)
    omega

/-- The encoded similarity is literally symmetric. -/
lemma simEntry_comm (u v : List String) : simEntry u v = simEntry v u := by
  unfold simEntry
  rcases eq_or_ne (normSqN u) 0 with hu | hu <;>
    rcases eq_or_ne (normSqN v) 0 with hv | hv <;>
      simp [hu, hv, dotN_comm u v, Nat.mul_comm (normSqN u) (normSqN v)]

/-- The encoded similarity lies in [0, 1]: numerator bounded by the (positive)
denominator. -/
lemma simEntry_in01 (u v : List String) :
    (simEntry u v).1 ≤ (simEntry u v).2 ∧ 0 < (simEntry u v).2 := by
  unfold simEntry
  rcases eq_or_ne (normSqN u) 0 with hu | hu
  · simp [hu]
  · rcases eq_or_ne (normSqN v) 0 with hv | hv
    · simp [hv]
    · rw [if_neg (by simp [hu, hv])]
      exact ⟨dotN_sq_le u v,
             Nat.mul_pos (Nat.pos_of_ne_zero hu) (Nat.pos_of_ne_zero hv)⟩

/-- Diagonal of a row with at least one token: the encoding of the value 1. -/
lemma simEntry_diag_one (u : List String) (h : u ≠ []) :
    (simEntry u u).1 = (simEntry u u).2 := by
  have hne : normSqN u ≠ 0 := Nat.pos_iff_ne_zero.mp (normSqN_pos u h)
  simp only [simEntry, or_self, if_neg hne]
  rw [show dotN u u = normSqN u from rfl, pow_two]

/-- Diagonal of a tokenless row: the encoding of the value 0. -/
lemma simEntry_diag_zero : simEntry [] [] = (0, 1) := by
  simp [simEntry, normSqN, dotN]

/-- Shape of a successful `calcular_similitud` call. -/
lemma calc_ok {df df' : Table} {M : List (List (ℕ × ℕ))}
    (h : calcular_similitud df = .ok (df', M)) :
    df' = df.map (fun p => (p.1, setInfo p.2)) ∧
    M = (docsOf df).map (fun u => (docsOf df).map (fun v => simEntry u v)) := by
  unfold calcular_similitud at h
  split at h
  · exact absurd h (by simp)
  · rw [Except.ok.injEq, Prod.mk.injEq] at h
    exact ⟨h.1.symm, h.2.symm⟩

/-- Token documents at a position. -/
lemma docs_at {df : Table} {i : ℕ} {p : ℕ × PRow} (hp : df[i]? = some p) :
    (docsOf df)[i]? = some (tokenize (featureText p.2)) := by
  unfold docsOf
  rw [List.getElem?_map, hp]
  rfl

/-- Matrix entry at two in-range positions. -/
lemma entry_eq {df : Table} {M : List (List (ℕ × ℕ))}
    (hM : M = (docsOf df).map (fun u => (docsOf df).map (fun v => simEntry u v)))
    {i j : ℕ} {u v : List String}
    (hu : (docsOf df)[i]? = some u) (hv : (docsOf df)[j]? = some v) :
    entry M i j = simEntry u v := by
  subst hM
  simp [entry, List.getElem?_map, hu, hv]

/-- Matrix entry with an out-of-range row position. -/
lemma entry_default_left {df : Table} {M : List (List (ℕ × ℕ))}
    (hM : M = (docsOf df).map (fun u => (docsOf df).map (fun v => simEntry u v)))
    {i j : ℕ} (hi : (docsOf df)[i]? = none) : entry M i j = (0, 1) := by
  subst hM
  simp [entry, List.getElem?_map, hi]

/-- Matrix entry with an out-of-range column position. -/
lemma entry_default_right {df : Table} {M : List (List (ℕ × ℕ))}
    (hM : M = (docsOf df).map (fun u => (docsOf df).map (fun v => simEntry u v)))
    {i j : ℕ} (hj : (docsOf df)[j]? = none) : entry M i j = (0, 1) := by
  subst hM
  cases hi : (docsOf df)[i]? with
  | none => simp [entry, List.getElem?_map, hi]
  | some u => simp [entry, List.getElem?_map, hi, hj]

/-- C7 (counterexample): the diagonal is NOT 1 for every row with non-empty
feature text.  The row with category "X" and locality "Y" has the non-empty
feature text "X Y", but the default token pattern keeps only words of two or
more characters, so its count vector is zero and its diagonal entry encodes
the value 0 (sklearn's convention for zero vectors), not 1. -/
theorem c7_counterexample :
    calcular_similitud tablaXY =
      .ok ([(0, setInfo filaXY), (1, setInfo filaSol)],
           [[(0, 1), (0, 1)], [(0, 1), (4, 4)]]) ∧
    featureText filaXY = "X Y" ∧
    (entry [[(0, 1), (0, 1)], [(0, 1), (4, 4)]] 0 0).1 ≠
      (entry [[(0, 1), (0, 1)], [(0, 1), (4, 4)]] 0 0).2 := by decide

/-- C7 (amended): a successful `calcular_similitud` returns an RxR matrix
(R = table rows) that is symmetric; every entry encodes a value in [0, 1]
(numerator at most the positive denominator); the diagonal entry of a row
whose feature text yields at least one token encodes the value 1 (equal
numerator and denominator), and the diagonal entry of a tokenless row
encodes the value 0. -/
theorem c7_matrix_properties (df df' : Table) (M : List (List (ℕ × ℕ)))
    (h : calcular_similitud df = .ok (df', M)) :
    M.length = df.length ∧
    (∀ row ∈ M, row.length = df.length) ∧
    (∀ i j, entry M i j = entry M j i) ∧
    (∀ i j, (entry M i j).1 ≤ (entry M i j).2 ∧ 0 < (entry M i j).2) ∧
    (∀ i p, df[i]? = some p → tokenize (featureText p.2) ≠ [] →
      (entry M i i).1 = (entry M i i).2) ∧
    (∀ i p, df[i]? = some p → tokenize (featureText p.2) = [] →
      entry M i i = (0, 1)) := by
  obtain ⟨hdf', hM⟩ := calc_ok h
  have hlen : (docsOf df).length = df.length := by
    unfold docsOf
    exact List.length_map _ _
  refine ⟨?_, ?_, ?_, ?_, ?_, ?_⟩
  · rw [hM, List.length_map, hlen]
  · intro row hrow
    rw [hM] at hrow
    rcases List.mem_map.mp hrow with ⟨u, _, rfl⟩
    rw [List.length_map, hlen]
  · intro i j
    cases hi : (docsOf df)[i]? with
    | none => rw [entry_default_left hM hi, entry_default_right hM hi]
    | some u =>
      cases hj : (docsOf df)[j]? with
      | none => rw [entry_default_right hM hj, entry_default_left hM hj]
      | some v => rw [entry_eq hM hi hj, entry_eq hM hj hi, simEntry_comm]
  · intro i j
    cases hi : (docsOf df)[i]? with
    | none => rw [entry_default_left hM hi]; exact ⟨Nat.zero_le _, Nat.zero_lt_one⟩
    | some u =>
      cases hj : (docsOf df)[j]? with
      | none => rw [entry_default_right hM hj]; exact ⟨Nat.zero_le _, Nat.zero_lt_one⟩
      | some v => rw [entry_eq hM hi hj]; exact simEntry_in01 u v
  · intro i p hp hne
    rw [entry_eq hM (docs_at hp) (docs_at hp)]
    exact simEntry_diag_one _ hne
  · intro i p hp hz
    rw [entry_eq hM (docs_at hp) (docs_at hp), hz]
    exact simEntry_diag_zero

/-- C7 (witness): the amended theorem applied to the three-row table and its
3x3 matrix. -/
theorem c7_witness :
    matW.length = tablaW.length ∧
    (∀ row ∈ matW, row.length = tablaW.length) ∧
    (∀ i j, entry matW i j = entry matW j i) ∧
    (∀ i j, (entry matW i j).1 ≤ (entry matW i j).2 ∧ 0 < (entry matW i j).2) ∧
    (∀ i p, tablaW[i]? = some p → tokenize (featureText p.2) ≠ [] →
      (entry matW i i).1 = (entry matW i i).2) ∧
    (∀ i p, tablaW[i]? = some p → tokenize (featureText p.2) = [] →
      entry matW i i = (0, 1)) :=
  c7_matrix_properties tablaW (tablaW.map (fun p => (p.1, setInfo p.2))) matW
    (by decide)

/-- Feature texts factor through the category and locality columns alone. -/
lemma docsOf_factor (df : Table) :
    docsOf df = (df.map (fun p => (p.2.categoria, p.2.municipio))).map
      (fun cm => tokenize (cellToStr cm.1 ++ " " ++ cellToStr cm.2)) := by
  unfold docsOf featureText
  rw [List.map_map]
  rfl

/-- C8 (counterexample): `calcular_similitud` is not side-effect free on its
table: the call succeeds on the three-row table yet hands back a table
different from its input — every row gained the derived `info` column. -/
theorem c8_counterexample :
    tableOf tablaW = .ok (tablaW.map (fun p => (p.1, setInfo p.2))) ∧
    tableOf tablaW ≠ .ok tablaW := by decide

/-- C8 (amended): the only mutation `calcular_similitud` performs on the
table is writing the derived `info` column (category, a space, locality)
onto every row — labels, order and all other columns are unchanged — and
the similarity matrix it returns depends only on the table's category and
locality columns. -/
theorem c8_mutation_and_dependence :
    (∀ (df df' : Table) (M : List (List (ℕ × ℕ))),
      calcular_similitud df = .ok (df', M) →
      df' = df.map (fun p => (p.1, setInfo p.2))) ∧
    (∀ d1 d2 : Table,
      d1.map (fun p => (p.2.categoria, p.2.municipio)) =
        d2.map (fun p => (p.2.categoria, p.2.municipio)) →
      simOf d1 = simOf d2) := by
  constructor
  · intro df df' M h
    exact (calc_ok h).1
  · intro d1 d2 h
    have hd : docsOf d1 = docsOf d2 := by
      rw [docsOf_factor, docsOf_factor, h]
    by_cases hv : (docsOf d2).all List.isEmpty
    · simp [simOf, calcular_similitud, hd, hv, Except.map]
    · simp [simOf, calcular_similitud, hd, hv, Except.map]

/-- C8 (witness): both parts of the amended theorem applied to the three-row
table (and, for the dependence part, to it and its `info`-annotated copy,
which agree on the category and locality columns). -/
theorem c8_witness :
    tablaW.map (fun p => (p.1, setInfo p.2)) =
      tablaW.map (fun p => (p.1, setInfo p.2)) ∧
    simOf tablaW = simOf (tablaW.map (fun p => (p.1, setInfo p.2))) :=
  ⟨c8_mutation_and_dependence.1 tablaW (tablaW.map (fun p => (p.1, setInfo p.2)))
      matW (by decide),
   c8_mutation_and_dependence.2 tablaW (tablaW.map (fun p => (p.1, setInfo p.2)))
      (by decide)⟩

/-! ## Lemmas about duplicate removal and the cleaning invariants -/

/-- Deduplication keeps only rows of the input. -/
lemma mem_dedupAux : ∀ (l : List (ℕ × PRow)) (seen : List PRow) (p : ℕ × PRow),
    p ∈ dedupAux l seen → p ∈ l := by
  intro l
  induction l with
  | nil => intro seen p h; exact absurd h (List.not_mem_nil p)
  | cons x xs ih =>
    intro seen p h
    simp only [dedupAux] at h
    by_cases hx : x.2 ∈ seen
    · rw [if_pos hx] at h
      exact List.mem_cons_of_mem _ (ih _ _ h)
    · rw [if_neg hx] at h
      rcases List.mem_cons.mp h with rfl | h2
      · exact List.mem_cons_self _ _
      · exact List.mem_cons_of_mem _ (ih _ _ h2)

/-- A kept row's value never belongs to the already-seen values. -/
lemma dedupAux_not_seen : ∀ (l : List (ℕ × PRow)) (seen : List PRow)
    (p : ℕ × PRow), p ∈ dedupAux l seen → p.2 ∉ seen := by
  intro l
  induction l with
  | nil => intro seen p h; exact absurd h (List.not_mem_nil p)
  | cons x xs ih =>
    intro seen p h
    simp only [dedupAux] at h
    by_cases hx : x.2 ∈ seen
    · rw [if_pos hx] at h
      exact ih _ _ h
    · rw [if_neg hx] at h
      rcases List.mem_cons.mp h with rfl | h2
      · exact hx
      · exact fun hs => ih _ _ h2 (List.mem_cons_of_mem _ hs)

/-- Deduplicated row values are pairwise distinct. -/
lemma dedupAux_nodup : ∀ (l : List (ℕ × PRow)) (seen : List PRow),
    ((dedupAux l seen).map (fun p => p.2)).Nodup := by
  intro l
  induction l with
  | nil => intro seen; simp [dedupAux]
  | cons x xs ih =>
    intro seen
    simp only [dedupAux]
    by_cases hx : x.2 ∈ seen
    · rw [if_pos hx]
      exact ih _
    · rw [if_neg hx]
      simp only [List.map_cons, List.nodup_cons]
      refine ⟨?_, ih _⟩
      intro hmem
      rcases List.mem_map.mp hmem with ⟨q, hq, he⟩
      exact dedupAux_not_seen _ _ _ hq (by rw [he]; exact List.mem_cons_self _ _)

/-- Deduplication is the identity on a list of pairwise-distinct row values
disjoint from the seen set. -/
lemma dedupAux_of_distinct : ∀ (l : List (ℕ × PRow)) (seen : List PRow),
    (∀ p ∈ l, p.2 ∉ seen) → ((l.map (fun p => p.2)).Nodup) →
    dedupAux l seen = l := by
  intro l
  induction l with
  | nil => intro seen _ _; rfl
  | cons x xs ih =>
    intro seen hseen hnodup
    have hx : x.2 ∉ seen := hseen x (List.mem_cons_self _ _)
    simp only [List.map_cons, List.nodup_cons] at hnodup
    simp only [dedupAux]
    rw [if_neg hx]
    rw [ih (x.2 :: seen) ?hs hnodup.2]
    case hs =>
      intro p hp hmem
      rcases List.mem_cons.mp hmem with he | hs
      · exact hnodup.1 (he ▸ List.mem_map_of_mem _ hp)
      · exact hseen p (List.mem_cons_of_mem _ hp) hs

/-- C9: cleaning is idempotent — re-running the region filter and the
exact-duplicate removal on a table produced by `cargar_datos` returns it
unchanged: every kept row already has departamento QUINDIO (the fill step
cannot alter a non-missing cell), and kept row values are pairwise
distinct. -/
theorem c9_cleaning_idempotent (raw : List PRow) :
    recleanse (cargar_datos raw) = cargar_datos raw := by
  have hq : ∀ p ∈ cargar_datos raw, esQuindio p = true := by
    intro p hp
    have h1 : p ∈ (((raw.map prepRow).enum).filter esQuindio).map
        (fun q => (q.1, fillRow q.2)) := mem_dedupAux _ _ _ hp
    rcases List.mem_map.mp h1 with ⟨q, hq2, rfl⟩
    have h3 := (List.mem_filter.mp hq2).2
    unfold esQuindio at h3 ⊢
    simp only [decide_eq_true_eq] at h3 ⊢
    show fillCell q.2.departamento = RawCell.text "QUINDIO"
    rw [h3]
    rfl
  unfold recleanse
  rw [List.filter_eq_self.mpr hq]
  show dedupAux (cargar_datos raw) [] = cargar_datos raw
  apply dedupAux_of_distinct
  · intro p _ hmem
    exact absurd hmem (List.not_mem_nil _)
  · exact dedupAux_nodup _ _

/-- C9 (witness): idempotence evaluated on the concrete raw file `rawEx1`. -/
theorem c9_witness :
    recleanse (cargar_datos rawEx1) = cargar_datos rawEx1 :=
  c9_cleaning_idempotent rawEx1

/-- A filled cell is never missing, and is either the fill sentinel or the
cell it came from. -/
lemma fillCell_shape (c0 : RawCell) :
    fillCell c0 ≠ RawCell.missing ∧
    (fillCell c0 = RawCell.text "No disponible" ∨ fillCell c0 = c0) := by
  cases c0 <;> simp [fillCell]

/-- Conclusion of claim C5 for a plainly filled cell of a raw row. -/
lemma c5_plain {raw : List PRow} {rr : PRow} (hrr : rr ∈ raw) {c0 : RawCell}
    (h0 : c0 ∈ rowCells rr) :
    fillCell c0 ≠ RawCell.missing ∧
    (fillCell c0 = RawCell.text "No disponible" ∨
     fillCell c0 = RawCell.text "DESCONOCIDO" ∨
     ∃ rr2 ∈ raw, ∃ c1 ∈ rowCells rr2, fillCell c0 = c1 ∨ fillCell c0 = toNumeric c1) := by
  obtain ⟨hne, hor⟩ := fillCell_shape c0
  refine ⟨hne, ?_⟩
  rcases hor with h | h
  · exact Or.inl h
  · exact Or.inr (Or.inr ⟨rr, hrr, c0, h0, Or.inl h⟩)

/-- Conclusion of claim C5 for the establishment-name cell, which passes
through the DESCONOCIDO fill first. -/
lemma c5_razest {raw : List PRow} {rr : PRow} (hrr : rr ∈ raw) :
    fillCell (fillDesconocido rr.razon_social_establecimiento) ≠ RawCell.missing ∧
    (fillCell (fillDesconocido rr.razon_social_establecimiento) =
       RawCell.text "No disponible" ∨
     fillCell (fillDesconocido rr.razon_social_establecimiento) =
       RawCell.text "DESCONOCIDO" ∨
     ∃ rr2 ∈ raw, ∃ c1 ∈ rowCells rr2,
       fillCell (fillDesconocido rr.razon_social_establecimiento) = c1 ∨
       fillCell (fillDesconocido rr.razon_social_establecimiento) = toNumeric c1) := by
  obtain ⟨hne, hor⟩ := fillCell_shape (fillDesconocido rr.razon_social_establecimiento)
  refine ⟨hne, ?_⟩
  rcases hor with h | h
  · exact Or.inl h
  · have h2 : fillDesconocido rr.razon_social_establecimiento =
        RawCell.text "DESCONOCIDO" ∨
      fillDesconocido rr.razon_social_establecimiento =
        rr.razon_social_establecimiento := by
      cases hcase : rr.razon_social_establecimiento <;> simp [fillDesconocido]
    rcases h2 with h2 | h2
    · exact Or.inr (Or.inl (h.trans h2))
    · exact Or.inr (Or.inr ⟨rr, hrr, rr.razon_social_establecimiento,
        by simp [rowCells], Or.inl (h.trans h2)⟩)

/-- Conclusion of claim C5 for a capacity cell, which passes through the
numeric coercion first. -/
lemma c5_numeric {raw : List PRow} {rr : PRow} (hrr : rr ∈ raw) {c0 : RawCell}
    (h0 : c0 ∈ rowCells rr) :
    fillCell (toNumeric c0) ≠ RawCell.missing ∧
    (fillCell (toNumeric c0) = RawCell.text "No disponible" ∨
     fillCell (toNumeric c0) = RawCell.text "DESCONOCIDO" ∨
     ∃ rr2 ∈ raw, ∃ c1 ∈ rowCells rr2,
       fillCell (toNumeric c0) = c1 ∨ fillCell (toNumeric c0) = toNumeric c1) := by
  obtain ⟨hne, hor⟩ := fillCell_shape (toNumeric c0)
  refine ⟨hne, ?_⟩
  rcases hor with h | h
  · exact Or.inl h
  · exact Or.inr (Or.inr ⟨rr, hrr, c0, h0, Or.inr h⟩)

/-- C5: after `cargar_datos`, no cell of any kept row is a true-missing
value — every cell is the global sentinel, the trade-name sentinel, or a
cell of some raw row (possibly through the numeric coercion). -/
theorem c5_no_true_missing (raw : List PRow) (p : ℕ × PRow)
    (hp : p ∈ cargar_datos raw) (c : RawCell) (hc : c ∈ rowCells p.2) :
    c ≠ RawCell.missing ∧
    (c = RawCell.text "No disponible" ∨ c = RawCell.text "DESCONOCIDO" ∨
      ∃ rr ∈ raw, ∃ c0 ∈ rowCells rr, c = c0 ∨ c = toNumeric c0) := by
  have h1 : p ∈ (((raw.map prepRow).enum).filter esQuindio).map
      (fun q => (q.1, fillRow q.2)) := mem_dedupAux _ _ _ hp
  rcases List.mem_map.mp h1 with ⟨q, hq2, rfl⟩
  have h3 : q ∈ (raw.map prepRow).enum := (List.mem_filter.mp hq2).1
  have h4 : q.2 ∈ raw.map prepRow := List.snd_mem_of_mem_enum h3
  rcases List.mem_map.mp h4 with ⟨rr, hrr, hq5⟩
  rw [show (q.1, fillRow q.2).2 = fillRow q.2 from rfl, ← hq5] at hc
  simp only [rowCells, fillRow, prepRow, List.mem_cons, List.not_mem_nil,
    or_false] at hc
  rcases hc with rfl | rfl | rfl | rfl | rfl | rfl | rfl | rfl
  · exact c5_plain hrr (by simp [rowCells])
  · exact c5_plain hrr (by simp [rowCells])
  · exact c5_razest hrr
  · exact c5_plain hrr (by simp [rowCells])
  · exact c5_plain hrr (by simp [rowCells])
  · exact c5_numeric hrr (by simp [rowCells])
  · exact c5_numeric hrr (by simp [rowCells])
  · exact c5_numeric hrr (by simp [rowCells])

/-- C5 (witness): the invariant applied to the departamento cell of the
first cleaned row of `rawEx2`. -/
theorem c5_witness :
    RawCell.text "QUINDIO" ≠ RawCell.missing ∧
    (RawCell.text "QUINDIO" = RawCell.text "No disponible" ∨
     RawCell.text "QUINDIO" = RawCell.text "DESCONOCIDO" ∨
     ∃ rr ∈ rawEx2, ∃ c0 ∈ rowCells rr,
       RawCell.text "QUINDIO" = c0 ∨ RawCell.text "QUINDIO" = toNumeric c0) :=
  c5_no_true_missing rawEx2 (0, filaLuna) (by decide)
    (RawCell.text "QUINDIO") (by decide)

end RNT
